import Mathlib

/-!
Shallow embedding of the WebLLM chat application core
(`src/App.jsx`, with the model-switch variant in `src/components/Message.jsx`).

The two pieces of core logic are:

* the model-loading fallback loop `loadModel` (a recursion over an ordered
  candidate list, with a progress callback, an error classifier and a
  cooperative cancellation flag), together with the React state it writes
  (`engine`, `isDownloading`, `downloadProgress`, `error`, `modelName`,
  `triedModelsRef`);
* the chat session logic `generateReply` / `handleSubmit` over the message
  transcript.

External asynchronous behaviour (`webllm.CreateMLCEngine`, the chat
completion call) is modelled by oracles: each initialization attempt is
described by the finite list of progress callbacks it delivers followed by
its resolution (success with an engine handle, or failure with a message),
and each generation request by its outcome.  Cancellation (`cancelled`,
a flag set by the effect cleanup on unmount / model switch, only ever
flipped from `false` to `true`) is modelled by a global counter of
check points: the JS code reads the flag at every progress callback and at
every continuation after an `await`, so we number those checks `0, 1, 2, …`
and a cancellation time `some c` means every check numbered `≥ c` sees the
flag set.
-/

namespace WebLLM

/-! ### Error classification

`/device lost|insufficient memory|Device was lost/i.test(message)` —
a case-insensitive substring test for any of the three patterns. -/

/-- Boolean substring test on character lists. -/
def listHasSub (needle : List Char) : List Char → Bool
  | [] => needle.isEmpty
  | c :: t => needle.isPrefixOf (c :: t) || listHasSub needle t

/-- `hasSub hay needle` is true iff `needle` occurs as a contiguous
substring of `hay`. -/
def hasSub (hay needle : String) : Bool :=
  listHasSub needle.data hay.data

/-- Lowercase every character of a string (models the `i` regex flag). -/
def lowerStr (s : String) : String :=
  ⟨s.data.map Char.toLower⟩

/-- The resource-exhaustion heuristic of `loadModel`:
`/device lost|insufficient memory|Device was lost/i.test(message)`. -/
def isResourceExhaustion (message : String) : Bool :=
  hasSub (lowerStr message) "device lost"
    || hasSub (lowerStr message) "insufficient memory"
    || hasSub (lowerStr message) "device was lost"

/-! ### Oracles for the external engine factory -/

/-- One invocation of `initProgressCallback`: the `progress` field
(`progressObj.progress`, a fraction in JS, possibly absent — hence
`Option ℚ`, defaulted to `0` by `?? 0`) and the optional diagnostic
`progressObj.text`. -/
structure ProgressEvent where
  fraction : Option ℚ
  text : Option String
deriving DecidableEq, Repr

/-- JavaScript `Math.round`: round half toward positive infinity,
i.e. `⌊x + 1/2⌋`. -/
def jsRound (q : ℚ) : ℤ :=
  Int.floor (q + 1 / 2)

/-- The percentage computed by the progress callback:
`Math.round((progressObj.progress ?? 0) * 100)`. -/
def percentOf (e : ProgressEvent) : ℤ :=
  jsRound ((e.fraction.getD 0) * 100)

/-- Resolution of one `webllm.CreateMLCEngine` call: the promise either
fulfills with an engine handle (opaque, modelled as a natural number) or
rejects with an error whose message is `String(err?.message || err)`. -/
inductive AttemptOutcome where
  | success (eng : ℕ)
  | failure (msg : String)
deriving DecidableEq, Repr

/-- Oracle for one initialization attempt: the progress callbacks it
delivers, in order, followed by its resolution. -/
structure Attempt where
  progressEvents : List ProgressEvent
  outcome : AttemptOutcome
deriving DecidableEq, Repr

/-- `true` iff the attempt fails with a resource-exhaustion-classified
message (the only case in which `loadModel` falls back). -/
def attemptExhausts (a : Attempt) : Bool :=
  match a.outcome with
  | AttemptOutcome.success _ => false
  | AttemptOutcome.failure msg => isResourceExhaustion msg

/-! ### Loader state -/

/-- The React state owned by the loader: `engine`, `isDownloading`,
`downloadProgress`, `error`, `modelName` and the `triedModelsRef` audit
list. -/
@[ext] structure LoaderState where
  engine : Option ℕ
  isDownloading : Bool
  downloadProgress : ℤ
  error : Option String
  modelName : String
  tried : List String
deriving DecidableEq, Repr

/-- The `useState` initial values of `App` (engine `null`, not
downloading, progress `0`, no error, the default model name, empty audit
list). -/
def initialLoaderState : LoaderState :=
  { engine := none
    isDownloading := false
    downloadProgress := 0
    error := none
    modelName := "Llama-3.1-8B-Instruct-q4f32_1-MLC"
    tried := [] }

/-- Whether the `cancelled` flag reads `true` at check point number `k`,
given the cancellation time (`none`: never cancelled). -/
def isCancelled (cancelAfter : Option ℕ) (k : ℕ) : Bool :=
  match cancelAfter with
  | none => false
  | some c => c ≤ k

/-- One run of `initProgressCallback` at check point `k`:
`if (cancelled) return;` then
`setDownloadProgress(percent); setIsDownloading(percent < 100);`
(the optional `progressObj.text` is only logged, it writes no state). -/
def applyEvent (cancelAfter : Option ℕ) (k : ℕ) (e : ProgressEvent)
    (s : LoaderState) : LoaderState :=
  if isCancelled cancelAfter k then s
  else
    { s with
      downloadProgress := percentOf e
      isDownloading := decide (percentOf e < 100) }

/-- Deliver a list of progress callbacks in order, consuming one check
point each; returns the resulting state and the next check number. -/
def applyProgress (cancelAfter : Option ℕ) :
    ℕ → List ProgressEvent → LoaderState → LoaderState × ℕ
  | k, [], s => (s, k)
  | k, e :: t, s => applyProgress cancelAfter (k + 1) t (applyEvent cancelAfter k e s)

/-- The synchronous writes at the top of each `loadModel(nameIdx)` call:
`setModelName(selectedModel); triedModelsRef.current.push(selectedModel);
setIsDownloading(true); setDownloadProgress(0); setError(null);`. -/
def entryWrites (name : String) (s : LoaderState) : LoaderState :=
  { s with
    modelName := name
    tried := s.tried ++ [name]
    isDownloading := true
    downloadProgress := 0
    error := none }

/-- Everything in one `loadModel` call after the entry writes: deliver the
attempt's progress callbacks, then run the continuation after the `await`:
on fulfillment `if (cancelled) return; setEngine(created);
setIsDownloading(false); setDownloadProgress(100);`, on rejection
`if (cancelled) return; setError(message);` then either recurse
(`next`, i.e. `await loadModel(nameIdx + 1)`) when the message is
resource-exhaustion-classified, or `setIsDownloading(false)`. -/
def attemptTail (cancelAfter : Option ℕ) (att : Attempt) (k : ℕ)
    (s : LoaderState) (next : ℕ → LoaderState → LoaderState) : LoaderState :=
  let pk := applyProgress cancelAfter k att.progressEvents s
  match att.outcome with
  | AttemptOutcome.success eng =>
      if isCancelled cancelAfter pk.2 then pk.1
      else
        { pk.1 with
          engine := some eng
          isDownloading := false
          downloadProgress := 100 }
  | AttemptOutcome.failure msg =>
      if isCancelled cancelAfter pk.2 then pk.1
      else if isResourceExhaustion msg then
        next (pk.2 + 1) { pk.1 with error := some msg }
      else
        { pk.1 with error := some msg, isDownloading := false }

/-- `loadModel(nameIdx)` over the remaining candidates (each paired with
its attempt oracle): `if (nameIdx >= fallbackModels.length) return;`
(exhausted — no write), otherwise the entry writes followed by the
attempt. -/
def loadFrom (cancelAfter : Option ℕ) :
    List (String × Attempt) → ℕ → LoaderState → LoaderState
  | [], _, s => s
  | (name, att) :: rest, k, s =>
      attemptTail cancelAfter att k (entryWrites name s)
        (fun k' s' => loadFrom cancelAfter rest k' s')

/-- The top-level `loadModel()` call of the mount effect, started from the
initial React state with check counter `0`. -/
def loadModel (cancelAfter : Option ℕ) (candidates : List (String × Attempt)) :
    LoaderState :=
  loadFrom cancelAfter candidates 0 initialLoaderState

/-- The hard-coded ordered fallback list of `App.jsx`. -/
def fallbackModels : List String :=
  [ "Llama-3.2-1B-Instruct-q4f16_1-MLC"
  , "Llama-3.1-8B-Instruct-q4f32_1-MLC"
  , "Llama-3.1-8B-Instruct-q4f16_1-MLC"
  , "Llama-3.2-3B-Instruct-q4f16_1-MLC" ]

/-! ### Chat session

`generateReply` and `handleSubmit` of `App.jsx`.  Message ids come from
`uid()` (random); they are modelled as naturals supplied by the caller,
with freshness assumptions where a claim needs them.  The chat completion
call is an oracle: it either fulfills with the content string
`result.choices[0].message.content` or rejects with an error message. -/

/-- JavaScript `String.prototype.trim()`: remove whitespace from both ends
of the string. -/
def jsTrim (s : String) : String :=
  ⟨((s.data.dropWhile Char.isWhitespace).reverse.dropWhile
      Char.isWhitespace).reverse⟩

/-- Message role: the app only ever creates `"user"` and `"system"`
messages. -/
inductive Role where
  | user
  | system
deriving DecidableEq, Repr

/-- One transcript entry: `{ id, role, content, pending }` (the `pending`
field is absent on ordinary messages, modelled as `false`). -/
structure Msg where
  id : ℕ
  role : Role
  content : String
  pending : Bool
deriving DecidableEq, Repr

/-- The chat-session React state: the transcript, the input box and the
`loading` (generation in flight) flag. -/
@[ext] structure ChatState where
  messages : List Msg
  input : String
  loading : Bool
deriving DecidableEq, Repr

/-- Outcome of `engine.chat.completions.create(...)`: fulfilled with the
reply content, or rejected with an error message. -/
inductive GenOutcome where
  | ok (content : String)
  | genError (msg : String)
deriving DecidableEq, Repr

/-- `generateReply(text)`: returns the reply string and the (possibly
updated) loader `error` field.  `if (!engine) return "Engine not
initialized";`; on fulfillment `result.choices[0].message.content ||
"No response"` (JS `||`: an empty content string is falsy); on rejection
the catch block builds `msg`, calls `setError(msg)` and returns `msg`. -/
def generateReply (engine : Option ℕ) (out : GenOutcome)
    (error : Option String) : String × Option String :=
  match engine with
  | none => ("Engine not initialized", error)
  | some _ =>
      match out with
      | GenOutcome.ok content =>
          (if content = "" then "No response" else content, error)
      | GenOutcome.genError msg =>
          ("Generation error: " ++ msg, some ("Generation error: " ++ msg))

/-- The synchronous part of `handleSubmit` after the guard:
`setMessages(m => [...m, userMsg, placeholder]); setInput("");
setLoading(true);`. -/
def submitSync (userId placeholderId : ℕ) (s : ChatState) : ChatState :=
  { messages :=
      s.messages
        ++ [ { id := userId, role := Role.user, content := jsTrim s.input
               pending := false }
           , { id := placeholderId, role := Role.system
               content := "Thinking...", pending := true } ]
    input := ""
    loading := true }

/-- The continuation of `handleSubmit` after `generateReply` resolves:
`setMessages(m => m.map(msg => msg.id === placeholderId ? { ...msg,
content: reply, pending: false } : msg)); setLoading(false);`. -/
def resolveSubmit (placeholderId : ℕ) (reply : String) (s : ChatState) :
    ChatState :=
  { s with
    messages :=
      s.messages.map fun m =>
        if m.id = placeholderId then { m with content := reply, pending := false }
        else m
    loading := false }

/-- `handleSubmit`: guard `const value = input.trim(); if (!value ||
loading) return;`, then the synchronous phase (`submitSync`), the awaited
`generateReply`, and the placeholder resolution (`resolveSubmit`).
Returns the final chat state together with the loader `error` field. -/
def handleSubmit (userId placeholderId : ℕ) (engine : Option ℕ)
    (out : GenOutcome) (s : ChatState) (error : Option String) :
    ChatState × Option String :=
  if jsTrim s.input = "" ∨ s.loading then (s, error)
  else
    let s1 := submitSync userId placeholderId s
    let r := generateReply engine out error
    (resolveSubmit placeholderId r.1 s1, r.2)

/-- `clearChat`: `if (loading) return;` else reset the transcript to a
single fresh system message. -/
def clearChat (freshId : ℕ) (s : ChatState) : ChatState :=
  if s.loading then s
  else
    { s with
      messages :=
        [ { id := freshId, role := Role.system
            content := "Chat cleared. Ask something else!", pending := false } ] }

/-! ### Derived descriptions of loader runs, and supporting lemmas -/

/-- The message of a failed attempt (none for a successful one). -/
def attemptError (a : Attempt) : Option String :=
  match a.outcome with
  | AttemptOutcome.success _ => none
  | AttemptOutcome.failure msg => some msg

/-- The value `isDownloading` holds at the moment an attempt resolves:
`true` from the entry `setIsDownloading(true)`, unless a progress callback
ran, in which case it is `percent < 100` for the last callback. -/
def downloadingAfter (a : Attempt) : Bool :=
  (a.progressEvents.getLast?.map fun e => decide (percentOf e < 100)).getD true

/-- The value `downloadProgress` holds at the moment an attempt resolves:
`0` from the entry `setDownloadProgress(0)`, unless a progress callback
ran, in which case it is the last callback's percentage. -/
def progressAfter (a : Attempt) : ℤ :=
  (a.progressEvents.getLast?.map percentOf).getD 0

/-- Deliver progress callbacks with the cancellation flag never set. -/
def applyAll (evs : List ProgressEvent) (s : LoaderState) : LoaderState :=
  evs.foldl
    (fun t e =>
      { t with
        downloadProgress := percentOf e
        isDownloading := decide (percentOf e < 100) }) s

lemma applyEvent_none (k : ℕ) (e : ProgressEvent) (s : LoaderState) :
    applyEvent none k e s =
      { s with
        downloadProgress := percentOf e
        isDownloading := decide (percentOf e < 100) } := rfl

lemma applyProgress_none (evs : List ProgressEvent) :
    ∀ (k : ℕ) (s : LoaderState),
      applyProgress none k evs s = (applyAll evs s, k + evs.length) := by
  induction evs with
  | nil => intro k s; simp [applyProgress, applyAll]
  | cons e t ih =>
      intro k s
      rw [applyProgress, applyEvent_none, ih]
      simp [applyAll]
      omega

lemma applyAll_concat (xs : List ProgressEvent) (e : ProgressEvent)
    (s : LoaderState) :
    applyAll (xs ++ [e]) s =
      { applyAll xs s with
        downloadProgress := percentOf e
        isDownloading := decide (percentOf e < 100) } := by
  simp [applyAll, List.foldl_append]

lemma applyAll_engine (evs : List ProgressEvent) :
    ∀ s : LoaderState, (applyAll evs s).engine = s.engine := by
  induction evs with
  | nil => intro s; rfl
  | cons e t ih => intro s; rw [applyAll, List.foldl_cons]; exact ih _

lemma applyAll_error (evs : List ProgressEvent) :
    ∀ s : LoaderState, (applyAll evs s).error = s.error := by
  induction evs with
  | nil => intro s; rfl
  | cons e t ih => intro s; rw [applyAll, List.foldl_cons]; exact ih _

lemma applyAll_modelName (evs : List ProgressEvent) :
    ∀ s : LoaderState, (applyAll evs s).modelName = s.modelName := by
  induction evs with
  | nil => intro s; rfl
  | cons e t ih => intro s; rw [applyAll, List.foldl_cons]; exact ih _

lemma applyAll_tried (evs : List ProgressEvent) :
    ∀ s : LoaderState, (applyAll evs s).tried = s.tried := by
  induction evs with
  | nil => intro s; rfl
  | cons e t ih => intro s; rw [applyAll, List.foldl_cons]; exact ih _

lemma applyAll_isDownloading (evs : List ProgressEvent) (s : LoaderState) :
    (applyAll evs s).isDownloading =
      (evs.getLast?.map fun e => decide (percentOf e < 100)).getD
        s.isDownloading := by
  induction evs using List.reverseRecOn with
  | nil => rfl
  | append_singleton xs e ih =>
      rw [applyAll_concat]
      simp [List.getLast?_concat]

lemma applyAll_downloadProgress (evs : List ProgressEvent) (s : LoaderState) :
    (applyAll evs s).downloadProgress =
      (evs.getLast?.map percentOf).getD s.downloadProgress := by
  induction evs using List.reverseRecOn with
  | nil => rfl
  | append_singleton xs e ih =>
      rw [applyAll_concat]
      simp [List.getLast?_concat]

/-- The loader state the recursion passes on after a
resource-exhaustion-classified failure of an attempt. -/
def postFail (n : String) (att : Attempt) (m : String) (s : LoaderState) :
    LoaderState :=
  { applyAll att.progressEvents (entryWrites n s) with error := some m }

lemma postFail_engine (n : String) (att : Attempt) (m : String)
    (s : LoaderState) : (postFail n att m s).engine = s.engine := by
  simp [postFail, applyAll_engine, entryWrites]

lemma postFail_tried (n : String) (att : Attempt) (m : String)
    (s : LoaderState) : (postFail n att m s).tried = s.tried ++ [n] := by
  simp [postFail, applyAll_tried, entryWrites]

lemma postFail_modelName (n : String) (att : Attempt) (m : String)
    (s : LoaderState) : (postFail n att m s).modelName = n := by
  simp [postFail, applyAll_modelName, entryWrites]

lemma postFail_isDownloading (n : String) (att : Attempt) (m : String)
    (s : LoaderState) :
    (postFail n att m s).isDownloading = downloadingAfter att := by
  simp [postFail, applyAll_isDownloading, entryWrites, downloadingAfter]

lemma postFail_downloadProgress (n : String) (att : Attempt) (m : String)
    (s : LoaderState) :
    (postFail n att m s).downloadProgress = progressAfter att := by
  simp [postFail, applyAll_downloadProgress, entryWrites, progressAfter]

lemma loadFrom_cons_exhaust (n : String) (att : Attempt) (m : String)
    (rest : List (String × Attempt)) (k : ℕ) (s : LoaderState)
    (hout : att.outcome = AttemptOutcome.failure m)
    (hex : isResourceExhaustion m = true) :
    loadFrom none ((n, att) :: rest) k s =
      loadFrom none rest (k + att.progressEvents.length + 1)
        (postFail n att m s) := by
  rw [loadFrom, attemptTail, applyProgress_none, hout]
  simp [isCancelled, hex, postFail]

lemma loadFrom_cons_nonexhaust (n : String) (att : Attempt) (m : String)
    (rest : List (String × Attempt)) (k : ℕ) (s : LoaderState)
    (hout : att.outcome = AttemptOutcome.failure m)
    (hex : isResourceExhaustion m = false) :
    loadFrom none ((n, att) :: rest) k s =
      { postFail n att m s with isDownloading := false } := by
  rw [loadFrom, attemptTail, applyProgress_none, hout]
  simp [isCancelled, hex, postFail]

lemma loadFrom_cons_success (n : String) (att : Attempt) (eng : ℕ)
    (rest : List (String × Attempt)) (k : ℕ) (s : LoaderState)
    (hout : att.outcome = AttemptOutcome.success eng) :
    loadFrom none ((n, att) :: rest) k s =
      { applyAll att.progressEvents (entryWrites n s) with
        engine := some eng
        isDownloading := false
        downloadProgress := 100 } := by
  rw [loadFrom, attemptTail, applyProgress_none, hout]
  simp [isCancelled]

/-- An attempt classified as exhausting is a failure whose message matches
the resource-exhaustion patterns. -/
lemma attemptExhausts_elim (a : Attempt) (h : attemptExhausts a = true) :
    ∃ m, a.outcome = AttemptOutcome.failure m ∧ isResourceExhaustion m = true := by
  cases hout : a.outcome with
  | success eng => rw [attemptExhausts, hout] at h; exact absurd h (by simp)
  | failure m => exact ⟨m, rfl, by rwa [attemptExhausts, hout] at h⟩

/-- Master description of a run in which every attempt fails with a
resource-exhaustion-classified error: the audit list grows by exactly the
candidate names in order, the engine field is never written, and the
fields of the final state are those left by the last attempt. -/
lemma loadFrom_exhaust_spec (pairs : List (String × Attempt))
    (h : ∀ p ∈ pairs, attemptExhausts p.2 = true) :
    ∀ (k : ℕ) (s : LoaderState),
      (loadFrom none pairs k s).tried = s.tried ++ pairs.map Prod.fst ∧
      (loadFrom none pairs k s).engine = s.engine ∧
      (∀ n a, pairs.getLast? = some (n, a) →
        (loadFrom none pairs k s).error = attemptError a ∧
        (loadFrom none pairs k s).isDownloading = downloadingAfter a ∧
        (loadFrom none pairs k s).downloadProgress = progressAfter a ∧
        (loadFrom none pairs k s).modelName = n) := by
  induction pairs with
  | nil =>
      intro k s
      refine ⟨by simp [loadFrom], rfl, ?_⟩
      intro n a hlast
      simp at hlast
  | cons p rest ih =>
      intro k s
      obtain ⟨n₀, att₀⟩ := p
      obtain ⟨m, hout, hex⟩ := attemptExhausts_elim att₀ (h (n₀, att₀) (by simp))
      rw [loadFrom_cons_exhaust n₀ att₀ m rest k s hout hex]
      have hrest : ∀ p ∈ rest, attemptExhausts p.2 = true := by
        intro q hq; exact h q (by simp [hq])
      obtain ⟨htried, hengine, hlast⟩ :=
        ih hrest (k + att₀.progressEvents.length + 1) (postFail n₀ att₀ m s)
      refine ⟨?_, ?_, ?_⟩
      · rw [htried, postFail_tried]
        simp
      · rw [hengine, postFail_engine]
      · intro n a hl
        cases rest with
        | nil =>
            simp at hl
            obtain ⟨hn, ha⟩ := hl
            subst hn; subst ha
            refine ⟨?_, ?_, ?_, ?_⟩
            · show (postFail n₀ att₀ m s).error = attemptError att₀
              simp [postFail, attemptError, hout]
            · exact postFail_isDownloading n₀ att₀ m s
            · exact postFail_downloadProgress n₀ att₀ m s
            · exact postFail_modelName n₀ att₀ m s
        | cons q rest' =>
            exact hlast n a (by rwa [List.getLast?_cons_cons] at hl)

/-- Running the loader over `pre ++ rest` when every attempt in `pre`
fails with a resource-exhaustion-classified error reaches `rest` with the
engine untouched and the audit list extended by the names of `pre`. -/
lemma loadFrom_exhaust_append (pre : List (String × Attempt))
    (h : ∀ p ∈ pre, attemptExhausts p.2 = true) :
    ∀ (rest : List (String × Attempt)) (k : ℕ) (s : LoaderState),
      ∃ (k' : ℕ) (s' : LoaderState),
        loadFrom none (pre ++ rest) k s = loadFrom none rest k' s' ∧
        s'.engine = s.engine ∧
        s'.tried = s.tried ++ pre.map Prod.fst := by
  induction pre with
  | nil =>
      intro rest k s
      exact ⟨k, s, by simp, rfl, by simp⟩
  | cons p pre' ih =>
      intro rest k s
      obtain ⟨n₀, att₀⟩ := p
      obtain ⟨m, hout, hex⟩ := attemptExhausts_elim att₀ (h (n₀, att₀) (by simp))
      have hpre' : ∀ p ∈ pre', attemptExhausts p.2 = true := by
        intro q hq; exact h q (by simp [hq])
      obtain ⟨k', s', heq, heng, htried⟩ :=
        ih hpre' rest (k + att₀.progressEvents.length + 1) (postFail n₀ att₀ m s)
      refine ⟨k', s', ?_, ?_, ?_⟩
      · rw [List.cons_append,
          loadFrom_cons_exhaust n₀ att₀ m (pre' ++ rest) k s hout hex, heq]
      · rw [heng, postFail_engine]
      · rw [htried, postFail_tried]
        simp

/-- With the cancellation flag already set, every progress callback is a
no-op: the state is returned untouched (the check counter still
advances). -/
lemma applyProgress_cancelled (evs : List ProgressEvent) :
    ∀ (c k : ℕ) (s : LoaderState), c ≤ k →
      applyProgress (some c) k evs s = (s, k + evs.length) := by
  induction evs with
  | nil => intro c k s _; simp [applyProgress]
  | cons e t ih =>
      intro c k s hck
      rw [applyProgress]
      have hcan : isCancelled (some c) k = true := by
        simp [isCancelled, hck]
      rw [applyEvent, hcan]
      simp only [if_true]
      rw [ih c (k + 1) s (Nat.le_succ_of_le hck)]
      simp
      omega

/-- With the cancellation flag set, the resolution checks also see it. -/
lemma isCancelled_le (c k : ℕ) (h : c ≤ k) : isCancelled (some c) k = true := by
  simp [isCancelled, h]

/-- A placeholder-resolution map over a transcript that holds no message
with the placeholder id leaves the transcript unchanged. -/
lemma map_resolve_fresh (p : ℕ) (reply : String) (ms : List Msg)
    (h : ∀ m ∈ ms, m.id ≠ p) :
    (ms.map fun m =>
      if m.id = p then { m with content := reply, pending := false } else m) =
      ms := by
  induction ms with
  | nil => rfl
  | cons q t ih =>
      rw [List.map_cons]
      rw [if_neg (by exact_mod_cast h q (by simp))]
      rw [ih fun m hm => h m (by simp [hm])]

/-- The last element of a list is a member of it. -/
lemma mem_of_getLast?_eq {α : Type} (l : List α) (a : α)
    (h : l.getLast? = some a) : a ∈ l := by
  obtain ⟨hne, hx⟩ :=
    List.mem_getLast?_eq_getLast (l := l) (x := a)
      (by simp [Option.mem_def, h])
  rw [hx]
  exact List.getLast_mem hne

end WebLLM

namespace WebLLM

/-! ### The claims -/

/-- C1: if every initialization attempt fails with a
resource-exhaustion-classified error, the Loader attempts every candidate
exactly once, in list order (the tried-candidates audit list equals the
full input list of names), ends with no engine in a terminal failed state,
and retains the last attempt's error; since the recursion returns at that
point, no further retry occurs. -/
theorem exhaustion_tries_all_in_order (pairs : List (String × Attempt))
    (h : ∀ p ∈ pairs, attemptExhausts p.2 = true) :
    (loadModel none pairs).tried = pairs.map Prod.fst ∧
    (loadModel none pairs).engine = none ∧
    (∀ n a m, pairs.getLast? = some (n, a) →
      a.outcome = AttemptOutcome.failure m →
      (loadModel none pairs).error = some m) := by
  obtain ⟨ht, he, hl⟩ := loadFrom_exhaust_spec pairs h 0 initialLoaderState
  refine ⟨?_, ?_, ?_⟩
  · show (loadFrom none pairs 0 initialLoaderState).tried = pairs.map Prod.fst
    rw [ht]
    rfl
  · show (loadFrom none pairs 0 initialLoaderState).engine = none
    rw [he]
    rfl
  · intro n a m hlast hout
    show (loadFrom none pairs 0 initialLoaderState).error = some m
    rw [(hl n a hlast).1, attemptError, hout]

/-- Witness for C1 at the concrete two-candidate run of the spec's example
scenario shape: both candidates fail with resource-exhaustion messages. -/
theorem exhaustion_tries_all_in_order_witness :
    (∀ p ∈ ([("A", ⟨[], AttemptOutcome.failure "Device was lost"⟩),
             ("B", ⟨[], AttemptOutcome.failure "insufficient memory"⟩)] :
        List (String × Attempt)), attemptExhausts p.2 = true) ∧
    ((loadModel none
        [("A", ⟨[], AttemptOutcome.failure "Device was lost"⟩),
         ("B", ⟨[], AttemptOutcome.failure "insufficient memory"⟩)]).tried =
      ([("A", ⟨[], AttemptOutcome.failure "Device was lost"⟩),
        ("B", ⟨[], AttemptOutcome.failure "insufficient memory"⟩)] :
        List (String × Attempt)).map Prod.fst ∧
    (loadModel none
        [("A", ⟨[], AttemptOutcome.failure "Device was lost"⟩),
         ("B", ⟨[], AttemptOutcome.failure "insufficient memory"⟩)]).engine =
      none ∧
    (∀ n a m,
      ([("A", ⟨[], AttemptOutcome.failure "Device was lost"⟩),
        ("B", ⟨[], AttemptOutcome.failure "insufficient memory"⟩)] :
        List (String × Attempt)).getLast? = some (n, a) →
      a.outcome = AttemptOutcome.failure m →
      (loadModel none
          [("A", ⟨[], AttemptOutcome.failure "Device was lost"⟩),
           ("B", ⟨[], AttemptOutcome.failure "insufficient memory"⟩)]).error =
        some m)) :=
  ⟨by decide, exhaustion_tries_all_in_order _ (by decide)⟩

/-- C2: if the attempt for a candidate fails with an error whose message
does not match the resource-exhaustion patterns, no later candidate is
ever attempted (the audit list stops at that candidate, whatever follows
it), the error is recorded as terminal and kept as-is, the engine stays
absent and the download flag is cleared. -/
theorem nonexhaust_error_is_terminal (pre : List (String × Attempt))
    (n : String) (att : Attempt) (m : String)
    (post : List (String × Attempt))
    (hpre : ∀ p ∈ pre, attemptExhausts p.2 = true)
    (hout : att.outcome = AttemptOutcome.failure m)
    (hex : isResourceExhaustion m = false) :
    (loadModel none (pre ++ (n, att) :: post)).tried =
      pre.map Prod.fst ++ [n] ∧
    (loadModel none (pre ++ (n, att) :: post)).engine = none ∧
    (loadModel none (pre ++ (n, att) :: post)).error = some m ∧
    (loadModel none (pre ++ (n, att) :: post)).isDownloading = false := by
  obtain ⟨k', s', heq, heng, htried⟩ :=
    loadFrom_exhaust_append pre hpre ((n, att) :: post) 0 initialLoaderState
  have hstep :
      loadModel none (pre ++ (n, att) :: post) =
        { postFail n att m s' with isDownloading := false } := by
    show loadFrom none (pre ++ (n, att) :: post) 0 initialLoaderState = _
    rw [heq, loadFrom_cons_nonexhaust n att m post k' s' hout hex]
  rw [hstep]
  refine ⟨?_, ?_, rfl, rfl⟩
  · show (postFail n att m s').tried = pre.map Prod.fst ++ [n]
    rw [postFail_tried, htried]
    rfl
  · show (postFail n att m s').engine = none
    rw [postFail_engine, heng]
    rfl

/-- Witness for C2 at the spec's example scenario: candidate "A" fails
with "invalid model format"; candidate "B" is never attempted. -/
theorem nonexhaust_error_is_terminal_witness :
    (∀ p ∈ ([] : List (String × Attempt)), attemptExhausts p.2 = true) ∧
    (⟨[], AttemptOutcome.failure "invalid model format"⟩ :
        Attempt).outcome = AttemptOutcome.failure "invalid model format" ∧
    isResourceExhaustion "invalid model format" = false ∧
    ((loadModel none
        ([] ++ ("A", ⟨[], AttemptOutcome.failure "invalid model format"⟩)
          :: [("B", ⟨[], AttemptOutcome.failure "x"⟩)])).tried =
      ([] : List (String × Attempt)).map Prod.fst ++ ["A"] ∧
    (loadModel none
        ([] ++ ("A", ⟨[], AttemptOutcome.failure "invalid model format"⟩)
          :: [("B", ⟨[], AttemptOutcome.failure "x"⟩)])).engine = none ∧
    (loadModel none
        ([] ++ ("A", ⟨[], AttemptOutcome.failure "invalid model format"⟩)
          :: [("B", ⟨[], AttemptOutcome.failure "x"⟩)])).error =
      some "invalid model format" ∧
    (loadModel none
        ([] ++ ("A", ⟨[], AttemptOutcome.failure "invalid model format"⟩)
          :: [("B", ⟨[], AttemptOutcome.failure "x"⟩)])).isDownloading =
      false) :=
  ⟨by decide, rfl, by decide,
    nonexhaust_error_is_terminal [] "A" _ "invalid model format" _
      (by decide) rfl (by decide)⟩

/-- C3: if the first candidate's attempt succeeds, the Loader never
attempts a second candidate (the audit list is exactly the first name,
whatever candidates follow), stores the engine handle, sets progress to
100, clears the error and stops downloading. -/
theorem first_success_stops (n : String) (evs : List ProgressEvent)
    (eng : ℕ) (rest : List (String × Attempt)) :
    loadModel none ((n, ⟨evs, AttemptOutcome.success eng⟩) :: rest) =
      { engine := some eng
        isDownloading := false
        downloadProgress := 100
        error := none
        modelName := n
        tried := [n] } := by
  show loadFrom none ((n, ⟨evs, AttemptOutcome.success eng⟩) :: rest) 0
      initialLoaderState = _
  rw [loadFrom_cons_success n _ eng rest 0 initialLoaderState rfl]
  refine LoaderState.ext ?_ ?_ ?_ ?_ ?_ ?_
  · rfl
  · rfl
  · rfl
  · show (applyAll evs (entryWrites n initialLoaderState)).error = none
    exact (applyAll_error evs _).trans rfl
  · show (applyAll evs (entryWrites n initialLoaderState)).modelName = n
    exact (applyAll_modelName evs _).trans rfl
  · show (applyAll evs (entryWrites n initialLoaderState)).tried = [n]
    exact (applyAll_tried evs _).trans rfl

/-- C4: once the cancellation flag is set (check number `c` with every
remaining check `k ≥ c`), the in-flight attempt's remaining progress
callbacks, its success continuation and its failure continuation all leave
the loader state untouched — the result is exactly the state at
cancellation time, so `engine`, `downloadProgress`, `error`,
`isDownloading` and the audit list are not written and no next candidate
attempt is started. -/
theorem cancelled_attempt_has_no_effect (c k : ℕ) (att : Attempt)
    (rest : List (String × Attempt)) (s : LoaderState) (hck : c ≤ k) :
    attemptTail (some c) att k s
      (fun k' s' => loadFrom (some c) rest k' s') = s := by
  have hp := applyProgress_cancelled att.progressEvents c k s hck
  have hc : isCancelled (some c) (k + att.progressEvents.length) = true :=
    isCancelled_le c _ (le_trans hck (Nat.le_add_right k _))
  cases hout : att.outcome with
  | success eng => simp [attemptTail, hp, hout, hc]
  | failure msg => simp [attemptTail, hp, hout, hc]

/-- Witness for C4: a cancelled attempt that would otherwise deliver a
progress callback, fail with a resource-exhaustion message and fall back
to a further candidate changes nothing. -/
theorem cancelled_attempt_has_no_effect_witness :
    0 ≤ 0 ∧
    attemptTail (some 0)
      ⟨[⟨none, none⟩], AttemptOutcome.failure "Device was lost"⟩ 0
      initialLoaderState
      (fun k' s' =>
        loadFrom (some 0) [("B", ⟨[], AttemptOutcome.failure "x"⟩)] k' s') =
      initialLoaderState :=
  ⟨Nat.le_refl 0,
    cancelled_attempt_has_no_effect 0 0 _ _ _ (Nat.le_refl 0)⟩

/-- C5 counterexample: the code does not clamp the displayed progress.
Within a single attempt, a callback reporting fraction `1/2` records
progress `50`, and a subsequent out-of-order callback reporting fraction
`1/4` lowers the recorded progress to `25` — the displayed value
decreases. -/
theorem progress_not_clamped_counterexample :
    (applyProgress none 0 [⟨some (1 / 2), none⟩]
        (entryWrites "A" initialLoaderState)).1.downloadProgress = 50 ∧
    (applyProgress none 0 [⟨some (1 / 2), none⟩, ⟨some (1 / 4), none⟩]
        (entryWrites "A" initialLoaderState)).1.downloadProgress = 25 ∧
    (applyProgress none 0 [⟨some (1 / 2), none⟩, ⟨some (1 / 4), none⟩]
          (entryWrites "A" initialLoaderState)).1.downloadProgress <
      (applyProgress none 0 [⟨some (1 / 2), none⟩]
          (entryWrites "A" initialLoaderState)).1.downloadProgress := by
  have h50 : percentOf ⟨some (1 / 2), none⟩ = 50 := by
    norm_num [percentOf, jsRound]
  have h25 : percentOf ⟨some (1 / 4), none⟩ = 25 := by
    norm_num [percentOf, jsRound]
  refine ⟨?_, ?_, ?_⟩
  · show percentOf ⟨some (1 / 2), none⟩ = 50
    exact h50
  · show percentOf ⟨some (1 / 4), none⟩ = 25
    exact h25
  · show percentOf ⟨some (1 / 4), none⟩ < percentOf ⟨some (1 / 2), none⟩
    rw [h25, h50]
    norm_num

/-- C5 as amended: each progress callback records exactly
`round(fraction × 100)` of the fraction it reports (with an absent
fraction defaulted to `0`) and never fails, but the value is not clamped:
after any sequence of callbacks ending in `e`, the recorded progress is
`e`'s percentage — even when that is lower than the previous value — and
the downloading flag is `percent < 100`. -/
theorem progress_follows_last_callback (evs : List ProgressEvent)
    (e : ProgressEvent) (k : ℕ) (s : LoaderState) :
    (applyProgress none k (evs ++ [e]) s).1.downloadProgress =
      jsRound ((e.fraction.getD 0) * 100) ∧
    (applyProgress none k (evs ++ [e]) s).1.isDownloading =
      decide (jsRound ((e.fraction.getD 0) * 100) < 100) := by
  rw [applyProgress_none]
  constructor
  · show (applyAll (evs ++ [e]) s).downloadProgress = _
    rw [applyAll_concat]
    rfl
  · show (applyAll (evs ++ [e]) s).isDownloading = _
    rw [applyAll_concat]
    rfl

/-- C10: when every attempt fails with a resource-exhaustion-classified
error, the exhaustion return path (`nameIdx >= fallbackModels.length`)
writes nothing, so the terminal state's `isDownloading` is whatever the
last attempt left: `true` from its entry write, unless its progress
callbacks ran, in which case it is `percent < 100` for the last callback —
in particular the flag is `true` whenever no callback of the last attempt
reported 100% or more. -/
theorem exhaustion_leaves_isDownloading (pairs : List (String × Attempt))
    (n : String) (a : Attempt)
    (h : ∀ p ∈ pairs, attemptExhausts p.2 = true)
    (hlast : pairs.getLast? = some (n, a)) :
    (loadModel none pairs).isDownloading = downloadingAfter a ∧
    ((∀ e ∈ a.progressEvents, percentOf e < 100) →
      (loadModel none pairs).isDownloading = true) := by
  obtain ⟨-, -, hl⟩ := loadFrom_exhaust_spec pairs h 0 initialLoaderState
  obtain ⟨-, hdown, -, -⟩ := hl n a hlast
  refine ⟨hdown, ?_⟩
  intro hall
  show (loadFrom none pairs 0 initialLoaderState).isDownloading = true
  rw [hdown, downloadingAfter]
  cases hge : a.progressEvents.getLast? with
  | none => rfl
  | some e =>
      have hmem : e ∈ a.progressEvents := mem_of_getLast?_eq _ _ hge
      simp [hall e hmem]

/-- Witness for C10: two candidates both failing with resource-exhaustion
messages, the last one without progress callbacks: the final state still
has `isDownloading = true`. -/
theorem exhaustion_leaves_isDownloading_witness :
    (∀ p ∈ ([("A", ⟨[], AttemptOutcome.failure "Device was lost"⟩),
             ("B", ⟨[], AttemptOutcome.failure "insufficient memory"⟩)] :
        List (String × Attempt)), attemptExhausts p.2 = true) ∧
    ([("A", ⟨[], AttemptOutcome.failure "Device was lost"⟩),
      ("B", ⟨[], AttemptOutcome.failure "insufficient memory"⟩)] :
        List (String × Attempt)).getLast? =
      some ("B", ⟨[], AttemptOutcome.failure "insufficient memory"⟩) ∧
    ((loadModel none
        [("A", ⟨[], AttemptOutcome.failure "Device was lost"⟩),
         ("B", ⟨[], AttemptOutcome.failure "insufficient memory"⟩)]).isDownloading =
      downloadingAfter ⟨[], AttemptOutcome.failure "insufficient memory"⟩ ∧
    ((∀ e ∈ (⟨[], AttemptOutcome.failure "insufficient memory"⟩ :
        Attempt).progressEvents, percentOf e < 100) →
      (loadModel none
          [("A", ⟨[], AttemptOutcome.failure "Device was lost"⟩),
           ("B", ⟨[], AttemptOutcome.failure "insufficient memory"⟩)]).isDownloading =
        true)) :=
  ⟨by decide, by decide,
    exhaustion_leaves_isDownloading _ "B" _ (by decide) (by decide)⟩

/-- Full description of a non-rejected `handleSubmit` run (non-blank
trimmed input, no generation in flight, placeholder id fresh for the
transcript and distinct from the user-message id): the user message and
the resolved placeholder are appended, every pre-existing message is
untouched, the input is cleared, and the loader error field is whatever
`generateReply` leaves. -/
lemma handleSubmit_run (u p : ℕ) (eng : Option ℕ) (out : GenOutcome)
    (s : ChatState) (err : Option String)
    (hval : jsTrim s.input ≠ "") (hload : s.loading = false)
    (hfresh : ∀ m ∈ s.messages, m.id ≠ p) (hup : u ≠ p) :
    handleSubmit u p eng out s err =
      ({ messages :=
           s.messages ++
             [ { id := u, role := Role.user, content := jsTrim s.input
                 pending := false }
             , { id := p, role := Role.system
                 content := (generateReply eng out err).1
                 pending := false } ]
         input := ""
         loading := false },
       (generateReply eng out err).2) := by
  have hcond : ¬(jsTrim s.input = "" ∨ s.loading = true) := by
    simp [hval, hload]
  rw [handleSubmit, if_neg hcond]
  refine Prod.ext ?_ rfl
  show resolveSubmit p (generateReply eng out err).1 (submitSync u p s) = _
  rw [resolveSubmit, submitSync]
  simp [map_resolve_fresh p (generateReply eng out err).1 s.messages hfresh,
    hup]

/-- C6: submitting non-whitespace text while an engine is held and no
generation is in flight synchronously appends exactly two entries — the
user message and the pending placeholder, in that order — and the
resolution then mutates exactly the placeholder in place (content set to
the reply, pending flag cleared, id and position unchanged); the
transcript length and every other message are unchanged by the
resolution. -/
theorem submit_appends_two_and_resolves_placeholder (u p g : ℕ)
    (out : GenOutcome) (s : ChatState) (err : Option String)
    (hval : jsTrim s.input ≠ "") (hload : s.loading = false)
    (hfresh : ∀ m ∈ s.messages, m.id ≠ p) (hup : u ≠ p) :
    (submitSync u p s).messages =
      s.messages ++
        [ { id := u, role := Role.user, content := jsTrim s.input
            pending := false }
        , { id := p, role := Role.system, content := "Thinking..."
            pending := true } ] ∧
    handleSubmit u p (some g) out s err =
      ({ messages :=
           s.messages ++
             [ { id := u, role := Role.user, content := jsTrim s.input
                 pending := false }
             , { id := p, role := Role.system
                 content := (generateReply (some g) out err).1
                 pending := false } ]
         input := ""
         loading := false },
       (generateReply (some g) out err).2) :=
  ⟨rfl, handleSubmit_run u p (some g) out s err hval hload hfresh hup⟩

/-- Witness for C6: submitting "hi" over a one-message transcript with a
held engine. -/
theorem submit_appends_two_and_resolves_placeholder_witness :
    (jsTrim (⟨[⟨0, Role.system, "Hi! How can I help you today?", false⟩],
        "hi", false⟩ : ChatState).input ≠ "" ∧
     (⟨[⟨0, Role.system, "Hi! How can I help you today?", false⟩],
        "hi", false⟩ : ChatState).loading = false ∧
     (∀ m ∈ (⟨[⟨0, Role.system, "Hi! How can I help you today?", false⟩],
        "hi", false⟩ : ChatState).messages, m.id ≠ 2) ∧
     (1 : ℕ) ≠ 2) ∧
    ((submitSync 1 2
        ⟨[⟨0, Role.system, "Hi! How can I help you today?", false⟩],
          "hi", false⟩).messages =
      (⟨[⟨0, Role.system, "Hi! How can I help you today?", false⟩],
         "hi", false⟩ : ChatState).messages ++
        [ { id := 1, role := Role.user
            content := jsTrim (⟨[⟨0, Role.system,
              "Hi! How can I help you today?", false⟩], "hi", false⟩ :
                ChatState).input
            pending := false }
        , { id := 2, role := Role.system, content := "Thinking..."
            pending := true } ] ∧
    handleSubmit 1 2 (some 5) (GenOutcome.ok "hello")
        ⟨[⟨0, Role.system, "Hi! How can I help you today?", false⟩],
          "hi", false⟩ none =
      ({ messages :=
           (⟨[⟨0, Role.system, "Hi! How can I help you today?", false⟩],
              "hi", false⟩ : ChatState).messages ++
             [ { id := 1, role := Role.user
                 content := jsTrim (⟨[⟨0, Role.system,
                   "Hi! How can I help you today?", false⟩], "hi", false⟩ :
                     ChatState).input
                 pending := false }
             , { id := 2, role := Role.system
                 content := (generateReply (some 5) (GenOutcome.ok "hello")
                   none).1
                 pending := false } ]
         input := ""
         loading := false },
       (generateReply (some 5) (GenOutcome.ok "hello") none).2)) :=
  ⟨⟨by decide, rfl, by decide, by decide⟩,
    submit_appends_two_and_resolves_placeholder 1 2 5
      (GenOutcome.ok "hello") _ none (by decide) rfl (by decide) (by decide)⟩

/-- C7: a submit whose trimmed input is empty, or issued while a
generation is already in flight, is rejected with no state change: the
chat state and the loader error field are returned untouched. -/
theorem submit_rejected_no_change (u p : ℕ) (eng : Option ℕ)
    (out : GenOutcome) (s : ChatState) (err : Option String)
    (h : jsTrim s.input = "" ∨ s.loading = true) :
    handleSubmit u p eng out s err = (s, err) := by
  rw [handleSubmit, if_pos h]

/-- Witness for C7: submitting whitespace-only input "   " leaves
everything unchanged. -/
theorem submit_rejected_no_change_witness :
    (jsTrim (⟨[⟨0, Role.system, "Hi! How can I help you today?", false⟩],
        "   ", false⟩ : ChatState).input = "" ∨
     (⟨[⟨0, Role.system, "Hi! How can I help you today?", false⟩],
        "   ", false⟩ : ChatState).loading = true) ∧
    handleSubmit 1 2 (some 5) (GenOutcome.ok "hello")
        ⟨[⟨0, Role.system, "Hi! How can I help you today?", false⟩],
          "   ", false⟩ none =
      (⟨[⟨0, Role.system, "Hi! How can I help you today?", false⟩],
         "   ", false⟩, none) :=
  ⟨Or.inl (by decide),
    submit_rejected_no_change 1 2 (some 5) (GenOutcome.ok "hello") _ none
      (Or.inl (by decide))⟩

/-- C8 counterexample: with no engine held, a non-whitespace submit is NOT
rejected with "no state change": the transcript grows from one message to
three (user message plus placeholder), so the chat state does change. -/
theorem no_engine_submit_changes_state_counterexample :
    (handleSubmit 1 2 none (GenOutcome.ok "ignored")
        ⟨[⟨0, Role.system, "Hi! How can I help you today?", false⟩],
          "hi", false⟩ none).1 ≠
      (⟨[⟨0, Role.system, "Hi! How can I help you today?", false⟩],
         "hi", false⟩ : ChatState) ∧
    (handleSubmit 1 2 none (GenOutcome.ok "ignored")
        ⟨[⟨0, Role.system, "Hi! How can I help you today?", false⟩],
          "hi", false⟩ none).1.messages.length = 3 := by
  constructor <;> decide

/-- C8 as amended: a non-whitespace submit with no engine held is not
rejected — the user message and placeholder are appended exactly as in
the engine-held case, and the placeholder resolves to the specific
"Engine not initialized" reply; no exception is thrown and the loader
error field is left unchanged. -/
theorem no_engine_resolves_not_ready (u p : ℕ) (out : GenOutcome)
    (s : ChatState) (err : Option String)
    (hval : jsTrim s.input ≠ "") (hload : s.loading = false)
    (hfresh : ∀ m ∈ s.messages, m.id ≠ p) (hup : u ≠ p) :
    handleSubmit u p none out s err =
      ({ messages :=
           s.messages ++
             [ { id := u, role := Role.user, content := jsTrim s.input
                 pending := false }
             , { id := p, role := Role.system
                 content := "Engine not initialized", pending := false } ]
         input := ""
         loading := false },
       err) :=
  handleSubmit_run u p none out s err hval hload hfresh hup

/-- Witness for the amended C8: submitting "hi" with no engine resolves
the placeholder to "Engine not initialized" and leaves the error field
(`none`) unchanged. -/
theorem no_engine_resolves_not_ready_witness :
    (jsTrim (⟨[⟨0, Role.system, "Hi! How can I help you today?", false⟩],
        "hi", false⟩ : ChatState).input ≠ "" ∧
     (1 : ℕ) ≠ 2) ∧
    handleSubmit 1 2 none (GenOutcome.ok "ignored")
        ⟨[⟨0, Role.system, "Hi! How can I help you today?", false⟩],
          "hi", false⟩ none =
      ({ messages :=
           (⟨[⟨0, Role.system, "Hi! How can I help you today?", false⟩],
              "hi", false⟩ : ChatState).messages ++
             [ { id := 1, role := Role.user
                 content := jsTrim (⟨[⟨0, Role.system,
                   "Hi! How can I help you today?", false⟩], "hi", false⟩ :
                     ChatState).input
                 pending := false }
             , { id := 2, role := Role.system
                 content := "Engine not initialized", pending := false } ]
         input := ""
         loading := false },
       none) :=
  ⟨⟨by decide, by decide⟩,
    no_engine_resolves_not_ready 1 2 (GenOutcome.ok "ignored") _ none
      (by decide) rfl (by decide) (by decide)⟩

/-- C9: when the generation request rejects, the error text is placed into
the placeholder reply AND the loader-owned global error field is set to
the same "Generation error: …" message — generation does not leave the
loader error field unchanged. -/
theorem generation_failure_sets_global_error (u p g : ℕ) (m : String)
    (s : ChatState) (err : Option String)
    (hval : jsTrim s.input ≠ "") (hload : s.loading = false)
    (hfresh : ∀ msg ∈ s.messages, msg.id ≠ p) (hup : u ≠ p) :
    (handleSubmit u p (some g) (GenOutcome.genError m) s err).2 =
      some ("Generation error: " ++ m) ∧
    (handleSubmit u p (some g) (GenOutcome.genError m) s err).1.messages =
      s.messages ++
        [ { id := u, role := Role.user, content := jsTrim s.input
            pending := false }
        , { id := p, role := Role.system
            content := "Generation error: " ++ m, pending := false } ] := by
  rw [handleSubmit_run u p (some g) (GenOutcome.genError m) s err hval hload
    hfresh hup]
  exact ⟨rfl, rfl⟩

/-- Witness for C9: a failed generation ("boom") sets the loader error
field to "Generation error: boom" and writes the same text into the
placeholder. -/
theorem generation_failure_sets_global_error_witness :
    (jsTrim (⟨[⟨0, Role.system, "Hi! How can I help you today?", false⟩],
        "hi", false⟩ : ChatState).input ≠ "" ∧
     (1 : ℕ) ≠ 2) ∧
    ((handleSubmit 1 2 (some 5) (GenOutcome.genError "boom")
        ⟨[⟨0, Role.system, "Hi! How can I help you today?", false⟩],
          "hi", false⟩ none).2 = some ("Generation error: " ++ "boom") ∧
    (handleSubmit 1 2 (some 5) (GenOutcome.genError "boom")
        ⟨[⟨0, Role.system, "Hi! How can I help you today?", false⟩],
          "hi", false⟩ none).1.messages =
      (⟨[⟨0, Role.system, "Hi! How can I help you today?", false⟩],
         "hi", false⟩ : ChatState).messages ++
        [ { id := 1, role := Role.user
            content := jsTrim (⟨[⟨0, Role.system,
              "Hi! How can I help you today?", false⟩], "hi", false⟩ :
                ChatState).input
            pending := false }
        , { id := 2, role := Role.system
            content := "Generation error: " ++ "boom", pending := false } ]) :=
  ⟨⟨by decide, by decide⟩,
    generation_failure_sets_global_error 1 2 5 "boom" _ none
      (by decide) rfl (by decide) (by decide)⟩

end WebLLM
